import Mathlib

/-!
Shallow embedding of the vehicle-simulation core of DrivingCanvas
(src/components/DrivingCanvas.tsx and src/constants.ts).

Numbers are modelled by `ℚ`.  The transcendental primitives the code calls
(`Math.tan`, `Math.cos`, `Math.sin`, `Math.PI`) are modelled as an abstract
bundle `Trig` of rational-valued functions and a rational constant: none of
the verified properties depends on their actual values, and this keeps every
definition computable.
-/

namespace DC

set_option maxHeartbeats 1000000

/-- Abstract stand-in for the JS `Math` trigonometric primitives used by the
physics code. -/
structure Trig where
  tan : ℚ → ℚ
  cos : ℚ → ℚ
  sin : ℚ → ℚ
  pi : ℚ

/-- `Gear` from src/unnamed/part_004 (types.ts). -/
inductive Gear
  | P
  | D
  | R
  | N
deriving DecidableEq, Repr

/-- `Point` from types.ts. -/
structure Point where
  x : ℚ
  y : ℚ
deriving DecidableEq, Repr

/-- Obstacle tag from types.ts: `'wall' | 'line' | 'target'`. -/
inductive ObstacleType
  | wall
  | line
  | target
deriving DecidableEq, Repr

/-- `MapObstacle` from types.ts (the `label` field is display-only and
omitted). -/
structure MapObstacle where
  type : ObstacleType
  points : List Point
deriving DecidableEq, Repr

/-- `GameMap` from types.ts restricted to the fields the physics reads:
start pose, obstacles and target zone. -/
structure GameMap where
  startX : ℚ
  startY : ℚ
  startAngle : ℚ
  obstacles : List MapObstacle
  targetZone : List Point
deriving DecidableEq, Repr

/-- `CarState` from types.ts. -/
structure CarState where
  x : ℚ
  y : ℚ
  angle : ℚ
  steeringAngle : ℚ
  speed : ℚ
  gear : Gear
  crashed : Bool
  success : Bool
deriving DecidableEq, Repr

/-- Blinker indicator from types.ts; it never influences the physics. -/
inductive BlinkerState
  | off
  | left
  | right
deriving DecidableEq, Repr

/-- `Difficulty` (`'easy' | 'hard'`, see src/App.tsx). -/
inductive Difficulty
  | easy
  | hard
deriving DecidableEq, Repr

/-- The `controlState` prop consumed by `updatePhysics`. -/
structure ControlState where
  gas : Bool
  brake : Bool
  steering : ℚ
  gear : Gear
  blinker : BlinkerState
deriving DecidableEq, Repr

/-! Constants from src/constants.ts. -/

def CAR_WIDTH : ℚ := 34

def CAR_LENGTH : ℚ := 70

def WHEELBASE : ℚ := 48

/-- `MAX_STEERING_ANGLE = Math.PI / 4`. -/
def MAX_STEERING_ANGLE (T : Trig) : ℚ := T.pi / 4

def MAX_SPEED : ℚ := 3 / 2

def ACCELERATION : ℚ := 4 / 100

def FRICTION : ℚ := 3 / 100

/-- `getCarCorners` (DrivingCanvas.tsx lines 555-572).  The JS default
argument `margin = 0` is passed explicitly at call sites. -/
def getCarCorners (T : Trig) (car : CarState) (margin : ℚ) : List Point :=
  let halfL := CAR_LENGTH / 2 + margin
  let halfW := CAR_WIDTH / 2 + margin
  let c := T.cos car.angle
  let s := T.sin car.angle
  let cornersRel : List Point :=
    [⟨halfL, -halfW⟩, ⟨halfL, halfW⟩, ⟨-halfL, halfW⟩, ⟨-halfL, -halfW⟩]
  cornersRel.map (fun p =>
    ⟨car.x + (p.x * c - p.y * s), car.y + (p.x * s + p.y * c)⟩)

/-- `linesIntersect` (DrivingCanvas.tsx lines 574-580). -/
def linesIntersect (a b c d : Point) : Bool :=
  let det := (b.x - a.x) * (d.y - c.y) - (d.x - c.x) * (b.y - a.y)
  if det = 0 then false
  else
    let lambda := ((d.y - c.y) * (d.x - a.x) + (c.x - d.x) * (d.y - a.y)) / det
    let gamma := ((a.y - b.y) * (d.x - a.x) + (b.x - a.x) * (d.y - a.y)) / det
    decide ((0 < lambda ∧ lambda < 1) ∧ (0 < gamma ∧ gamma < 1))

/-- The `det` local of `linesIntersect`. -/
def detOf (a b c d : Point) : ℚ :=
  (b.x - a.x) * (d.y - c.y) - (d.x - c.x) * (b.y - a.y)

/-- The `lambda` local of `linesIntersect`. -/
def lambdaOf (a b c d : Point) : ℚ :=
  ((d.y - c.y) * (d.x - a.x) + (c.x - d.x) * (d.y - a.y)) / detOf a b c d

/-- The `gamma` local of `linesIntersect`. -/
def gammaOf (a b c d : Point) : ℚ :=
  ((a.y - b.y) * (d.x - a.x) + (b.x - a.x) * (d.y - a.y)) / detOf a b c d

/-- `isPointInPolygon` (DrivingCanvas.tsx lines 582-591): even-odd
ray-casting loop, `j` being the predecessor index of `i` (wrapping). -/
def isPointInPolygon (p : Point) (polygon : List Point) : Bool :=
  (List.range polygon.length).foldl
    (fun inside i =>
      let j := if i = 0 then polygon.length - 1 else i - 1
      let vi := polygon.getD i ⟨0, 0⟩
      let vj := polygon.getD j ⟨0, 0⟩
      let intersect :=
        (decide (vi.y > p.y) != decide (vj.y > p.y)) &&
          decide (p.x < (vj.x - vi.x) * (p.y - vi.y) / (vj.y - vi.y) + vi.x)
      if intersect then !inside else inside)
    false

/-- Inner loop of `checkCollision` over the four vehicle edges
(DrivingCanvas.tsx lines 535-541). -/
def collideSegment (carCorners : List Point) (p1 p2 : Point) : Option Point :=
  (List.range 4).findSome? (fun j =>
    let c1 := carCorners.getD j ⟨0, 0⟩
    let c2 := carCorners.getD ((j + 1) % 4) ⟨0, 0⟩
    if linesIntersect p1 p2 c1 c2 then
      some ⟨(c1.x + c2.x) / 2, (c1.y + c2.y) / 2⟩
    else none)

/-- Middle loop of `checkCollision` over the consecutive point pairs of one
obstacle polyline (DrivingCanvas.tsx lines 532-542). -/
def collidePolyline (carCorners : List Point) (pts : List Point) : Option Point :=
  (List.range (pts.length - 1)).findSome? (fun i =>
    collideSegment carCorners (pts.getD i ⟨0, 0⟩) (pts.getD (i + 1) ⟨0, 0⟩))

/-- `checkCollision` (DrivingCanvas.tsx lines 527-546). -/
def checkCollision (T : Trig) (car : CarState) (obstacles : List MapObstacle)
    (tolerance : ℚ) : Option Point :=
  let carCorners := getCarCorners T car (-tolerance)
  obstacles.findSome? (fun obs =>
    if obs.type = ObstacleType.line then collidePolyline carCorners obs.points
    else none)

/-- `checkSuccess` (DrivingCanvas.tsx lines 548-553). -/
def checkSuccess (T : Trig) (car : CarState) (zone : List Point) : Bool :=
  if zone.length < 3 then false
  else if |car.speed| > 1 / 10 then false
  else (getCarCorners T car 0).all (fun c => isPointInPolygon c zone)

/-- `1. Calculate Target Speed` (DrivingCanvas.tsx lines 145-153). -/
def targetSpeedOf (controlState : ControlState) : ℚ :=
  if controlState.gear = Gear.D then
    (if controlState.gas then MAX_SPEED else 0)
  else if controlState.gear = Gear.R then
    (if controlState.gas then -MAX_SPEED else 0)
  else 0

/-- `2. Acceleration` plus `Friction to stop` (DrivingCanvas.tsx lines
155-168): the committed `newSpeed` of one tick. -/
def stepSpeed (controlState : ControlState) (prevCar : CarState) : ℚ :=
  let targetSpeed := targetSpeedOf controlState
  let speed1 :=
    if controlState.brake then
      if prevCar.speed > 0 then max 0 (prevCar.speed - ACCELERATION * 3)
      else if prevCar.speed < 0 then min 0 (prevCar.speed + ACCELERATION * 3)
      else prevCar.speed
    else
      if prevCar.speed < targetSpeed then
        min targetSpeed (prevCar.speed + ACCELERATION)
      else if prevCar.speed > targetSpeed then
        max targetSpeed (prevCar.speed - ACCELERATION)
      else prevCar.speed
  if controlState.gas = false ∧ controlState.brake = false then
    if speed1 > 0 then max 0 (speed1 - FRICTION)
    else if speed1 < 0 then min 0 (speed1 + FRICTION)
    else speed1
  else speed1

/-- The kinematic part of the `setCar` updater inside `updatePhysics`
(DrivingCanvas.tsx lines 140-194): speed update, steering, pose
integration; produces the `nextState` before collision/success checks. -/
def stepCar (T : Trig) (controlState : ControlState) (prevCar : CarState) :
    CarState :=
  let newSpeed := stepSpeed controlState prevCar
  let targetSteeringAngle := controlState.steering * MAX_STEERING_ANGLE T
  let pose :=
    if |newSpeed| > 1 / 100 then
      let angularVelocity := (newSpeed * T.tan targetSteeringAngle) / WHEELBASE
      let newAngle := prevCar.angle + angularVelocity
      (newAngle, prevCar.x + T.cos newAngle * newSpeed,
        prevCar.y + T.sin newAngle * newSpeed)
    else (prevCar.angle, prevCar.x, prevCar.y)
  { prevCar with
      x := pose.2.1
      y := pose.2.2
      angle := pose.1
      speed := newSpeed
      steeringAngle := targetSteeringAngle
      gear := controlState.gear }

/-- One full physics tick: the `setCar` updater of `updatePhysics`
(DrivingCanvas.tsx lines 136-213), including the early return on terminal
flags, the collision check with the difficulty-derived tolerance, and the
success check. -/
def tick (T : Trig) (difficulty : Difficulty) (map : GameMap)
    (controlState : ControlState) (prevCar : CarState) : CarState :=
  if prevCar.crashed = true ∨ prevCar.success = true then prevCar
  else
    let nextState := stepCar T controlState prevCar
    let tolerance : ℚ := if difficulty = Difficulty.easy then 2 else 0
    let collision := checkCollision T nextState map.obstacles tolerance
    let nextState1 :=
      if collision.isSome then { nextState with crashed := true } else nextState
    if checkSuccess T nextState1 map.targetZone then
      { nextState1 with success := true }
    else nextState1

/-- The reset effect (DrivingCanvas.tsx lines 65-78): reinitialize the car
from the map's start position. -/
def resetCar (map : GameMap) : CarState :=
  { x := map.startX
    y := map.startY
    angle := map.startAngle
    steeringAngle := 0
    speed := 0
    gear := Gear.P
    crashed := false
    success := false }

/-- Iterated ticks driven by a list of per-tick control inputs. -/
def runTicks (T : Trig) (difficulty : Difficulty) (map : GameMap)
    (ctrls : List ControlState) (car : CarState) : CarState :=
  ctrls.foldl (fun c ctrl => tick T difficulty map ctrl c) car

/-- Spec-side combinator: move `s` toward `target` by at most `step`,
clamped at the target ("moves toward ... clamped to not overshoot"). -/
def moveToward (s target step : ℚ) : ℚ :=
  if s < target then min target (s + step)
  else if s > target then max target (s - step)
  else s

/-! Concrete fixtures used by the witness theorems. -/

/-- A concrete `Trig` instance (values are irrelevant to the properties). -/
def trig3 : Trig := ⟨fun _ => 0, fun _ => 0, fun _ => 0, 3⟩

/-- A course with no obstacles and an empty target zone. -/
def emptyMap : GameMap := ⟨0, 0, 0, [], []⟩

/-- No pedals, centered steering, gear Park. -/
def idleCtrl : ControlState := ⟨false, false, 0, Gear.P, BlinkerState.off⟩

/-- Coasting control: no pedals, gear Drive. -/
def coastCtrl : ControlState := ⟨false, false, 0, Gear.D, BlinkerState.off⟩

/-- Full right steering input, no pedals. -/
def steerCtrl : ControlState := ⟨false, false, 1, Gear.D, BlinkerState.off⟩

/-- Gas held, gear Drive. -/
def gasCtrl : ControlState := ⟨true, false, 0, Gear.D, BlinkerState.off⟩

/-- A crashed state. -/
def crashedCar : CarState := ⟨5, 6, 0, 0, 0, Gear.D, true, false⟩

/-- A running state at rest. -/
def restingCar : CarState := ⟨10, 20, 1, 0, 0, Gear.P, false, false⟩

/-- A running state moving forward at speed 1 in Drive. -/
def movingCar : CarState := ⟨0, 0, 0, 0, 1, Gear.D, false, false⟩

/-- A `Trig` instance with `cos ≡ 1`, `sin ≡ 0`: at any heading the corner
computation becomes axis-aligned, giving exact rational geometry. -/
def trigId : Trig := ⟨fun _ => 0, fun _ => 1, fun _ => 0, 3⟩

/-- A boundary-line obstacle crossing the right edge of the car at the
origin. -/
def wallObs : MapObstacle := ⟨ObstacleType.line, [⟨30, 0⟩, ⟨40, 0⟩]⟩

/-- A point-marker obstacle. -/
def markerObs : MapObstacle := ⟨ObstacleType.target, [⟨0, 0⟩]⟩

/-- A running state at the origin with heading 0. -/
def originCar : CarState := ⟨0, 0, 0, 0, 0, Gear.P, false, false⟩

/-- A course containing only `wallObs`. -/
def wallMap : GameMap := ⟨0, 0, 0, [wallObs], []⟩

attribute [ext] CarState

/-! Structural lemmas shared by several claims. -/

lemma stepCar_speed (T : Trig) (ctrl : ControlState) (car : CarState) :
    (stepCar T ctrl car).speed = stepSpeed ctrl car := rfl

lemma tick_running_eq (T : Trig) (d : Difficulty) (m : GameMap) (ctrl : ControlState)
    (car : CarState) (h1 : car.crashed = false) (h2 : car.success = false) :
    tick T d m ctrl car =
      { stepCar T ctrl car with
          crashed := (checkCollision T (stepCar T ctrl car) m.obstacles
            (if d = Difficulty.easy then 2 else 0)).isSome,
          success := checkSuccess T (stepCar T ctrl car) m.targetZone } := by
  have hcr : (stepCar T ctrl car).crashed = false := h1
  have hsu : (stepCar T ctrl car).success = false := h2
  simp only [tick, h1, h2]
  split_ifs <;>
    ext <;>
    simp_all <;>
    first
      | rfl
      | (exact hcr.symm)
      | (exact hsu.symm)
      | assumption

lemma tick_frozen (T : Trig) (d : Difficulty) (m : GameMap) (ctrl : ControlState)
    (car : CarState) (h : car.crashed = true ∨ car.success = true) :
    tick T d m ctrl car = car := by
  unfold tick
  rw [if_pos h]

lemma stepCar_pose_frozen (T : Trig) (ctrl : ControlState) (car : CarState)
    (h : ¬ |stepSpeed ctrl car| > 1 / 100) :
    (stepCar T ctrl car).angle = car.angle ∧ (stepCar T ctrl car).x = car.x ∧
      (stepCar T ctrl car).y = car.y := by
  simp only [stepCar]
  rw [if_neg h]
  exact ⟨rfl, rfl, rfl⟩

lemma tick_speed (T : Trig) (d : Difficulty) (m : GameMap) (ctrl : ControlState)
    (car : CarState) (h1 : car.crashed = false) (h2 : car.success = false) :
    (tick T d m ctrl car).speed = stepSpeed ctrl car := by
  rw [tick_running_eq T d m ctrl car h1 h2]
  rfl

lemma runTicks_cons (T : Trig) (d : Difficulty) (m : GameMap) (c : ControlState)
    (cs : List ControlState) (car : CarState) :
    runTicks T d m (c :: cs) car = runTicks T d m cs (tick T d m c car) := rfl

lemma targetSpeedOf_gas_false (ctrl : ControlState) (h : ctrl.gas = false) :
    targetSpeedOf ctrl = 0 := by
  unfold targetSpeedOf
  split_ifs <;> simp_all

lemma stepSpeed_coast (ctrl : ControlState) (car : CarState)
    (hg : ctrl.gas = false) (hb : ctrl.brake = false) :
    stepSpeed ctrl car =
      if 0 ≤ car.speed then max 0 (car.speed - (ACCELERATION + FRICTION))
      else min 0 (car.speed + (ACCELERATION + FRICTION)) := by
  simp only [stepSpeed, hg, hb, targetSpeedOf_gas_false ctrl hg, Bool.false_eq_true,
    if_false, and_self, if_true]
  split_ifs <;>
    simp only [ACCELERATION, FRICTION, max_def, min_def] at * <;>
    split_ifs at * <;>
    linarith

lemma stepSpeed_eq_moveToward (ctrl : ControlState) (car : CarState) :
    stepSpeed ctrl car =
      if ctrl.brake = true then moveToward car.speed 0 (ACCELERATION * 3)
      else if ctrl.gas = true then moveToward car.speed (targetSpeedOf ctrl) ACCELERATION
      else moveToward (moveToward car.speed 0 ACCELERATION) 0 FRICTION := by
  cases hb : ctrl.brake <;> cases hg : ctrl.gas <;>
    simp only [stepSpeed, moveToward, hb, hg, targetSpeedOf_gas_false,
      Bool.false_eq_true, Bool.true_eq_false, if_false, if_true, and_self,
      and_false, false_and] <;>
    split_ifs <;>
    simp only [ACCELERATION, FRICTION, max_def, min_def] at * <;>
    split_ifs at * <;>
    linarith

lemma coast_abs_speed (T : Trig) (d : Difficulty) (m : GameMap) (ctrl : ControlState)
    (car : CarState) (h1 : car.crashed = false) (h2 : car.success = false)
    (hg : ctrl.gas = false) (hb : ctrl.brake = false) :
    |(tick T d m ctrl car).speed| = max 0 (|car.speed| - (ACCELERATION + FRICTION)) := by
  rw [tick_speed T d m ctrl car h1 h2, stepSpeed_coast ctrl car hg hb]
  rcases le_or_lt 0 car.speed with h | h
  · rw [if_pos h, abs_of_nonneg (le_max_left 0 _), abs_of_nonneg h]
  · rw [if_neg (not_le.mpr h), abs_of_nonpos (min_le_left 0 _), abs_of_neg h]
    simp only [max_def, min_def]
    split_ifs <;> linarith

lemma tick_empty_flags (T : Trig) (d : Difficulty) (m : GameMap) (ctrl : ControlState)
    (car : CarState) (ho : m.obstacles = []) (hz : m.targetZone = [])
    (h1 : car.crashed = false) (h2 : car.success = false) :
    (tick T d m ctrl car).crashed = false ∧ (tick T d m ctrl car).success = false := by
  rw [tick_running_eq T d m ctrl car h1 h2]
  constructor
  · show (checkCollision T (stepCar T ctrl car) m.obstacles _).isSome = false
    rw [ho]
    rfl
  · show checkSuccess T (stepCar T ctrl car) m.targetZone = false
    rw [hz]
    rfl

lemma coast_reaches_zero (T : Trig) (d : Difficulty) (m : GameMap) (ctrl : ControlState)
    (hg : ctrl.gas = false) (hb : ctrl.brake = false)
    (ho : m.obstacles = []) (hz : m.targetZone = []) :
    ∀ (n : ℕ) (car : CarState), car.crashed = false → car.success = false →
      |car.speed| ≤ n * (ACCELERATION + FRICTION) →
      (runTicks T d m (List.replicate n ctrl) car).speed = 0 := by
  intro n
  induction n with
  | zero =>
    intro car h1 h2 hle
    have h0 : car.speed = 0 := by
      have : |car.speed| ≤ 0 := by simpa using hle
      exact abs_eq_zero.mp (le_antisymm this (abs_nonneg _))
    simpa [runTicks] using h0
  | succ n ih =>
    intro car h1 h2 hle
    have hflags := tick_empty_flags T d m ctrl car ho hz h1 h2
    have hspeed : |(tick T d m ctrl car).speed| ≤ n * (ACCELERATION + FRICTION) := by
      rw [coast_abs_speed T d m ctrl car h1 h2 hg hb]
      have hpos : (0:ℚ) ≤ n * (ACCELERATION + FRICTION) := by
        have h : (0:ℚ) ≤ (n : ℚ) := Nat.cast_nonneg n
        have h2 : (0:ℚ) ≤ ACCELERATION + FRICTION := by norm_num [ACCELERATION, FRICTION]
        exact mul_nonneg h h2
      refine max_le hpos ?_
      push_cast at hle
      linarith
    rw [List.replicate_succ, runTicks_cons]
    exact ih (tick T d m ctrl car) hflags.1 hflags.2 hspeed

lemma moveToward_bound (lo hi s target step : ℚ) (hlo : lo ≤ s) (hhi : s ≤ hi)
    (htlo : lo ≤ target) (hthi : target ≤ hi) (hstep : 0 ≤ step) :
    lo ≤ moveToward s target step ∧ moveToward s target step ≤ hi := by
  unfold moveToward
  split_ifs <;> refine ⟨?_, ?_⟩ <;>
    first
      | ((simp only [max_def, min_def]; split_ifs) <;> linarith)
      | linarith

lemma stepSpeed_bound (ctrl : ControlState) (car : CarState)
    (h : |car.speed| ≤ MAX_SPEED) : |stepSpeed ctrl car| ≤ MAX_SPEED := by
  have htar : |targetSpeedOf ctrl| ≤ MAX_SPEED := by
    unfold targetSpeedOf
    split_ifs <;> simp [MAX_SPEED, abs_le] <;> norm_num
  rw [abs_le] at h htar ⊢
  rw [stepSpeed_eq_moveToward]
  have hms : -MAX_SPEED ≤ (0:ℚ) ∧ (0:ℚ) ≤ MAX_SPEED := by norm_num [MAX_SPEED]
  split_ifs
  · exact moveToward_bound (-MAX_SPEED) MAX_SPEED car.speed 0 (ACCELERATION * 3)
      h.1 h.2 hms.1 hms.2 (by norm_num [ACCELERATION])
  · exact moveToward_bound (-MAX_SPEED) MAX_SPEED car.speed (targetSpeedOf ctrl)
      ACCELERATION h.1 h.2 htar.1 htar.2 (by norm_num [ACCELERATION])
  · have hin := moveToward_bound (-MAX_SPEED) MAX_SPEED car.speed 0 ACCELERATION
      h.1 h.2 hms.1 hms.2 (by norm_num [ACCELERATION])
    exact moveToward_bound (-MAX_SPEED) MAX_SPEED _ 0 FRICTION
      hin.1 hin.2 hms.1 hms.2 (by norm_num [FRICTION])

lemma tick_bounds (T : Trig) (hpi : 0 ≤ T.pi) (d : Difficulty) (m : GameMap)
    (ctrl : ControlState) (car : CarState)
    (hsp : |car.speed| ≤ MAX_SPEED) (hsa : |car.steeringAngle| ≤ MAX_STEERING_ANGLE T)
    (hst : |ctrl.steering| ≤ 1) :
    |(tick T d m ctrl car).speed| ≤ MAX_SPEED ∧
      |(tick T d m ctrl car).steeringAngle| ≤ MAX_STEERING_ANGLE T := by
  by_cases hterm : car.crashed = true ∨ car.success = true
  · rw [tick_frozen T d m ctrl car hterm]
    exact ⟨hsp, hsa⟩
  · rcases Bool.eq_false_or_eq_true car.crashed with h1 | h1
    · exact absurd (Or.inl h1) hterm
    · rcases Bool.eq_false_or_eq_true car.success with h2 | h2
      · exact absurd (Or.inr h2) hterm
      · rw [tick_running_eq T d m ctrl car h1 h2]
        constructor
        · show |stepSpeed ctrl car| ≤ MAX_SPEED
          exact stepSpeed_bound ctrl car hsp
        · show |ctrl.steering * MAX_STEERING_ANGLE T| ≤ MAX_STEERING_ANGLE T
          have hmsa : 0 ≤ MAX_STEERING_ANGLE T := by
            simp only [MAX_STEERING_ANGLE]
            linarith
          rw [abs_mul, abs_of_nonneg hmsa]
          calc |ctrl.steering| * MAX_STEERING_ANGLE T
              ≤ 1 * MAX_STEERING_ANGLE T := mul_le_mul_of_nonneg_right hst hmsa
            _ = MAX_STEERING_ANGLE T := one_mul _

lemma runTicks_bounds (T : Trig) (hpi : 0 ≤ T.pi) (d : Difficulty) (m : GameMap) :
    ∀ (ctrls : List ControlState) (car : CarState),
      |car.speed| ≤ MAX_SPEED → |car.steeringAngle| ≤ MAX_STEERING_ANGLE T →
      (∀ c ∈ ctrls, |c.steering| ≤ 1) →
      |(runTicks T d m ctrls car).speed| ≤ MAX_SPEED ∧
        |(runTicks T d m ctrls car).steeringAngle| ≤ MAX_STEERING_ANGLE T := by
  intro ctrls
  induction ctrls with
  | nil => intro car hs ha _; exact ⟨hs, ha⟩
  | cons c cs ih =>
    intro car hs ha hst
    have hb := tick_bounds T hpi d m c car hs ha (hst c (List.mem_cons_self c cs))
    rw [runTicks_cons]
    exact ih (tick T d m c car) hb.1 hb.2 (fun x hx => hst x (List.mem_cons_of_mem c hx))

lemma linesIntersect_def (a b c d : Point) :
    linesIntersect a b c d =
      if detOf a b c d = 0 then false
      else decide ((0 < lambdaOf a b c d ∧ lambdaOf a b c d < 1) ∧
        (0 < gammaOf a b c d ∧ gammaOf a b c d < 1)) := rfl

lemma intersect_exists (a b c d : Point) (hdet : detOf a b c d ≠ 0) :
    a.x + lambdaOf a b c d * (b.x - a.x) = c.x + (1 - gammaOf a b c d) * (d.x - c.x) ∧
    a.y + lambdaOf a b c d * (b.y - a.y) = c.y + (1 - gammaOf a b c d) * (d.y - c.y) := by
  unfold lambdaOf gammaOf detOf at *
  constructor <;> field_simp <;> ring

lemma intersect_unique (a b c d : Point) (hdet : detOf a b c d ≠ 0) (t s : ℚ)
    (hx : a.x + t * (b.x - a.x) = c.x + s * (d.x - c.x))
    (hy : a.y + t * (b.y - a.y) = c.y + s * (d.y - c.y)) :
    t = lambdaOf a b c d ∧ s = 1 - gammaOf a b c d := by
  unfold lambdaOf gammaOf detOf at *
  constructor
  · field_simp
    linear_combination (d.y - c.y) * hx - (d.x - c.x) * hy
  · field_simp
    linear_combination (b.y - a.y) * hx - (b.x - a.x) * hy

lemma collideSegment_eq_some (cs : List Point) (p1 p2 : Point) (p : Point)
    (h : collideSegment cs p1 p2 = some p) :
    ∃ j < 4,
      linesIntersect p1 p2 (cs.getD j ⟨0, 0⟩) (cs.getD ((j + 1) % 4) ⟨0, 0⟩) = true ∧
      p = ⟨((cs.getD j ⟨0, 0⟩).x + (cs.getD ((j + 1) % 4) ⟨0, 0⟩).x) / 2,
           ((cs.getD j ⟨0, 0⟩).y + (cs.getD ((j + 1) % 4) ⟨0, 0⟩).y) / 2⟩ := by
  unfold collideSegment at h
  obtain ⟨j, hj, hfj⟩ := List.exists_of_findSome?_eq_some h
  rw [List.mem_range] at hj
  refine ⟨j, hj, ?_⟩
  dsimp only at hfj
  split_ifs at hfj with hI
  exact ⟨hI, (Option.some.inj hfj).symm⟩

lemma collideSegment_eq_none_iff (cs : List Point) (p1 p2 : Point) :
    collideSegment cs p1 p2 = none ↔
      ∀ j < 4,
        linesIntersect p1 p2 (cs.getD j ⟨0, 0⟩) (cs.getD ((j + 1) % 4) ⟨0, 0⟩) = false := by
  unfold collideSegment
  rw [List.findSome?_eq_none_iff]
  constructor
  · intro h j hj
    have hx := h j (List.mem_range.mpr hj)
    dsimp only at hx
    by_cases hI : linesIntersect p1 p2 (cs.getD j ⟨0, 0⟩) (cs.getD ((j + 1) % 4) ⟨0, 0⟩) = true
    · rw [if_pos hI] at hx
      exact absurd hx (by simp)
    · simpa using hI
  · intro h j hj
    rw [List.mem_range] at hj
    dsimp only
    rw [h j hj]
    simp

lemma collidePolyline_eq_some (cs : List Point) (pts : List Point) (p : Point)
    (h : collidePolyline cs pts = some p) :
    ∃ i < pts.length - 1,
      collideSegment cs (pts.getD i ⟨0, 0⟩) (pts.getD (i + 1) ⟨0, 0⟩) = some p := by
  unfold collidePolyline at h
  obtain ⟨i, hi, hfi⟩ := List.exists_of_findSome?_eq_some h
  rw [List.mem_range] at hi
  exact ⟨i, hi, hfi⟩

lemma collidePolyline_eq_none_iff (cs : List Point) (pts : List Point) :
    collidePolyline cs pts = none ↔
      ∀ i < pts.length - 1,
        collideSegment cs (pts.getD i ⟨0, 0⟩) (pts.getD (i + 1) ⟨0, 0⟩) = none := by
  unfold collidePolyline
  rw [List.findSome?_eq_none_iff]
  constructor
  · intro h i hi
    exact h i (List.mem_range.mpr hi)
  · intro h i hi
    rw [List.mem_range] at hi
    exact h i hi

lemma checkCollision_eq_some (T : Trig) (car : CarState) (obstacles : List MapObstacle)
    (tol : ℚ) (p : Point) (h : checkCollision T car obstacles tol = some p) :
    ∃ obs ∈ obstacles, obs.type = ObstacleType.line ∧
      collidePolyline (getCarCorners T car (-tol)) obs.points = some p := by
  unfold checkCollision at h
  obtain ⟨obs, hmem, hfo⟩ := List.exists_of_findSome?_eq_some h
  split_ifs at hfo with hline
  exact ⟨obs, hmem, hline, hfo⟩

lemma checkCollision_eq_none_iff (T : Trig) (car : CarState)
    (obstacles : List MapObstacle) (tol : ℚ) :
    checkCollision T car obstacles tol = none ↔
      ∀ obs ∈ obstacles, obs.type = ObstacleType.line →
        collidePolyline (getCarCorners T car (-tol)) obs.points = none := by
  unfold checkCollision
  rw [List.findSome?_eq_none_iff]
  constructor
  · intro h obs hmem hline
    have hx := h obs hmem
    rwa [if_pos hline] at hx
  · intro h obs hmem
    split_ifs with hline
    · exact h obs hmem hline
    · rfl

lemma collidePolyline_short (cs : List Point) (pts : List Point)
    (h : pts.length < 2) : collidePolyline cs pts = none := by
  unfold collidePolyline
  have h0 : pts.length - 1 = 0 := by omega
  rw [h0]
  rfl

lemma checkCollision_skip (T : Trig) (car : CarState) (obs : MapObstacle)
    (rest : List MapObstacle) (tol : ℚ)
    (h : obs.type ≠ ObstacleType.line ∨ obs.points.length < 2) :
    checkCollision T car (obs :: rest) tol = checkCollision T car rest tol := by
  unfold checkCollision
  rw [List.findSome?_cons]
  rcases h with h | h
  · rw [if_neg h]
  · split_ifs with hline
    · rw [collidePolyline_short _ _ h]
    · rfl

lemma corners_originCar :
    getCarCorners trigId originCar (0:ℚ) =
      [⟨35, -17⟩, ⟨35, 17⟩, ⟨-35, 17⟩, ⟨-35, -17⟩] := by
  norm_num [getCarCorners, trigId, originCar, CAR_LENGTH, CAR_WIDTH]

lemma wall_edge_intersect :
    linesIntersect ⟨30, 0⟩ ⟨40, 0⟩ ⟨35, -17⟩ ⟨35, 17⟩ = true := by
  rw [linesIntersect_def]
  rw [if_neg (by norm_num [detOf])]
  rw [decide_eq_true_eq]
  norm_num [lambdaOf, gammaOf, detOf]

lemma checkCollision_wall :
    checkCollision trigId originCar [wallObs] 0 = some ⟨35, 0⟩ := by
  norm_num [checkCollision, collidePolyline, collideSegment, corners_originCar, wallObs,
    wall_edge_intersect, List.findSome?_cons, List.findSome?_nil, List.getD_cons_zero,
    List.getD_cons_succ, List.range_succ]

/-! ## C1: terminal flags freeze the state; reset reinitializes it -/

/-- C1: once either terminal flag (`crashed` or `succeeded`) is true, every
subsequent tick — a single one or any iterated sequence, for any control
input — returns the `CarState` completely unchanged, and the explicit reset
reinitializes the state from the course's start pose with zero speed, zero
steering and gear = Park. -/
theorem C1_terminal_freeze_until_reset (T : Trig) (d : Difficulty) (m : GameMap)
    (car : CarState) :
    (car.crashed = true ∨ car.success = true →
      (∀ ctrl : ControlState, tick T d m ctrl car = car) ∧
      ∀ ctrls : List ControlState, runTicks T d m ctrls car = car) ∧
    resetCar m = CarState.mk m.startX m.startY m.startAngle 0 0 Gear.P false false := by
  refine ⟨fun h => ⟨fun ctrl => tick_frozen T d m ctrl car h, fun ctrls => ?_⟩, rfl⟩
  induction ctrls with
  | nil => rfl
  | cons c cs ih =>
    show runTicks T d m cs (tick T d m c car) = car
    rw [tick_frozen T d m c car h]
    exact ih

/-- Witness for C1 at a concrete crashed state. -/
theorem C1_terminal_freeze_until_reset_witness :
    (crashedCar.crashed = true ∨ crashedCar.success = true) ∧
      tick trig3 Difficulty.hard emptyMap idleCtrl crashedCar = crashedCar ∧
      runTicks trig3 Difficulty.hard emptyMap [idleCtrl, idleCtrl] crashedCar = crashedCar := by
  have h := C1_terminal_freeze_until_reset trig3 Difficulty.hard emptyMap crashedCar
  exact ⟨Or.inl rfl, (h.1 (Or.inl rfl)).1 idleCtrl, (h.1 (Or.inl rfl)).2 [idleCtrl, idleCtrl]⟩

/-! ## C2: the goal test -/

/-- C2: the goal test returns true iff the zone has at least 3 points, the
state's `|speed|` does not exceed the 0.1 stop threshold, and all four
vehicle corners (computed with margin 0) lie inside the target polygon
under the even-odd point-in-polygon test. -/
theorem C2_goal_test_characterization (T : Trig) (car : CarState) (zone : List Point) :
    (getCarCorners T car 0).length = 4 ∧
    (checkSuccess T car zone = true ↔
      3 ≤ zone.length ∧ |car.speed| ≤ 1 / 10 ∧
        ∀ c ∈ getCarCorners T car 0, isPointInPolygon c zone = true) := by
  refine ⟨rfl, ?_⟩
  unfold checkSuccess
  split_ifs with hlen hspd
  · simp only [false_iff]
    rintro ⟨h3, -, -⟩
    omega
  · simp only [false_iff]
    rintro ⟨-, h3, -⟩
    exact absurd hspd (not_lt.mpr h3)
  · rw [List.all_eq_true]
    constructor
    · intro hall
      exact ⟨by omega, le_of_not_lt hspd, fun c hc => hall c hc⟩
    · rintro ⟨-, -, hall⟩
      exact fun c hc => hall c hc

/-! ## C3: the collision test pipeline -/

/-- C3: on a Running tick the crash flag is exactly the result of the
collision scan run on the candidate state with tolerance 2 in easy
difficulty and 0 otherwise (corners computed with margin = −tolerance); a
reported collision point is the midpoint of an involved vehicle edge that
intersects a consecutive point pair of some boundary-line obstacle; the
scan finds nothing iff no such intersection exists; and a point-marker
obstacle, or a polyline with fewer than 2 points, contributes nothing. -/
theorem C3_collision_pipeline (T : Trig) (d : Difficulty) (m : GameMap)
    (ctrl : ControlState) (car : CarState) (obstacles : List MapObstacle)
    (tol : ℚ) (p : Point) :
    (car.crashed = false → car.success = false →
      (tick T d m ctrl car).crashed =
        (checkCollision T (stepCar T ctrl car) m.obstacles
          (if d = Difficulty.easy then 2 else 0)).isSome) ∧
    (checkCollision T car obstacles tol = some p →
      ∃ obs ∈ obstacles, obs.type = ObstacleType.line ∧
        ∃ i < obs.points.length - 1, ∃ j < 4,
          linesIntersect (obs.points.getD i ⟨0, 0⟩) (obs.points.getD (i + 1) ⟨0, 0⟩)
            ((getCarCorners T car (-tol)).getD j ⟨0, 0⟩)
            ((getCarCorners T car (-tol)).getD ((j + 1) % 4) ⟨0, 0⟩) = true ∧
          p = ⟨(((getCarCorners T car (-tol)).getD j ⟨0, 0⟩).x +
                 ((getCarCorners T car (-tol)).getD ((j + 1) % 4) ⟨0, 0⟩).x) / 2,
               (((getCarCorners T car (-tol)).getD j ⟨0, 0⟩).y +
                 ((getCarCorners T car (-tol)).getD ((j + 1) % 4) ⟨0, 0⟩).y) / 2⟩) ∧
    (checkCollision T car obstacles tol = none ↔
      ∀ obs ∈ obstacles, obs.type = ObstacleType.line →
        ∀ i < obs.points.length - 1, ∀ j < 4,
          linesIntersect (obs.points.getD i ⟨0, 0⟩) (obs.points.getD (i + 1) ⟨0, 0⟩)
            ((getCarCorners T car (-tol)).getD j ⟨0, 0⟩)
            ((getCarCorners T car (-tol)).getD ((j + 1) % 4) ⟨0, 0⟩) = false) ∧
    (∀ (obs : MapObstacle) (rest : List MapObstacle),
      obs.type ≠ ObstacleType.line ∨ obs.points.length < 2 →
      checkCollision T car (obs :: rest) tol = checkCollision T car rest tol) := by
  refine ⟨?_, ?_, ?_, fun obs rest h => checkCollision_skip T car obs rest tol h⟩
  · intro h1 h2
    rw [tick_running_eq T d m ctrl car h1 h2]
  · intro h
    obtain ⟨obs, hmem, hline, hpoly⟩ := checkCollision_eq_some T car obstacles tol p h
    obtain ⟨i, hi, hseg⟩ := collidePolyline_eq_some _ obs.points p hpoly
    obtain ⟨j, hj, hI, hp⟩ := collideSegment_eq_some _ _ _ p hseg
    exact ⟨obs, hmem, hline, i, hi, j, hj, hI, hp⟩
  · rw [checkCollision_eq_none_iff]
    constructor
    · intro h obs hmem hline i hi j hj
      have hpoly := h obs hmem hline
      rw [collidePolyline_eq_none_iff] at hpoly
      have hseg := hpoly i hi
      rw [collideSegment_eq_none_iff] at hseg
      exact hseg j hj
    · intro h obs hmem hline
      rw [collidePolyline_eq_none_iff]
      intro i hi
      rw [collideSegment_eq_none_iff]
      intro j hj
      exact h obs hmem hline i hi j hj

/-- Witness for C3: a concrete wall segment crossing the car's right edge
yields the collision point (35, 0), the midpoint of that edge, and a
point-marker obstacle is skipped. -/
theorem C3_collision_pipeline_witness :
    originCar.crashed = false ∧ originCar.success = false ∧
      (tick trigId Difficulty.hard wallMap idleCtrl originCar).crashed =
        (checkCollision trigId (stepCar trigId idleCtrl originCar) wallMap.obstacles
          (if Difficulty.hard = Difficulty.easy then 2 else 0)).isSome ∧
      checkCollision trigId originCar [wallObs] 0 = some ⟨35, 0⟩ ∧
      (∃ obs ∈ [wallObs], obs.type = ObstacleType.line ∧
        ∃ i < obs.points.length - 1, ∃ j < 4,
          linesIntersect (obs.points.getD i ⟨0, 0⟩) (obs.points.getD (i + 1) ⟨0, 0⟩)
            ((getCarCorners trigId originCar (-0)).getD j ⟨0, 0⟩)
            ((getCarCorners trigId originCar (-0)).getD ((j + 1) % 4) ⟨0, 0⟩) = true ∧
          (⟨35, 0⟩ : Point) =
            ⟨(((getCarCorners trigId originCar (-0)).getD j ⟨0, 0⟩).x +
               ((getCarCorners trigId originCar (-0)).getD ((j + 1) % 4) ⟨0, 0⟩).x) / 2,
             (((getCarCorners trigId originCar (-0)).getD j ⟨0, 0⟩).y +
               ((getCarCorners trigId originCar (-0)).getD ((j + 1) % 4) ⟨0, 0⟩).y) / 2⟩) ∧
      (markerObs.type ≠ ObstacleType.line ∨ markerObs.points.length < 2) ∧
      checkCollision trigId originCar (markerObs :: [wallObs]) 0 =
        checkCollision trigId originCar [wallObs] 0 := by
  have h := C3_collision_pipeline trigId Difficulty.hard wallMap idleCtrl originCar
    [wallObs] 0 ⟨35, 0⟩
  exact ⟨rfl, rfl, h.1 rfl rfl, checkCollision_wall, h.2.1 checkCollision_wall,
    Or.inl (by decide), h.2.2.2 markerObs [wallObs] (Or.inl (by decide))⟩

/-! ## C4: the strict proper segment-intersection test -/

/-- C4: `linesIntersect` returns true exactly when the determinant is
nonzero and the two segments cross at parameters strictly between 0 and 1
on both; in particular it returns false whenever the determinant is exactly
0 (parallel or collinear segments), and false for any configuration that
meets only at a parameter 0 or 1 (touching at an endpoint). -/
theorem C4_linesIntersect_strict_proper (a b c d : Point) :
    (linesIntersect a b c d = true ↔
      (detOf a b c d ≠ 0 ∧
       ∃ t s : ℚ, (0 < t ∧ t < 1) ∧ (0 < s ∧ s < 1) ∧
         a.x + t * (b.x - a.x) = c.x + s * (d.x - c.x) ∧
         a.y + t * (b.y - a.y) = c.y + s * (d.y - c.y))) ∧
    (detOf a b c d = 0 → linesIntersect a b c d = false) ∧
    (∀ t s : ℚ, (t = 0 ∨ t = 1 ∨ s = 0 ∨ s = 1) →
      a.x + t * (b.x - a.x) = c.x + s * (d.x - c.x) →
      a.y + t * (b.y - a.y) = c.y + s * (d.y - c.y) →
      linesIntersect a b c d = false) := by
  by_cases hdet : detOf a b c d = 0
  · rw [linesIntersect_def, if_pos hdet]
    refine ⟨?_, fun _ => rfl, fun t s _ _ _ => rfl⟩
    constructor
    · intro h
      exact absurd h (by simp)
    · rintro ⟨hne, -⟩
      exact absurd hdet hne
  · rw [linesIntersect_def, if_neg hdet]
    refine ⟨?_, fun h => absurd h hdet, ?_⟩
    · rw [decide_eq_true_eq]
      constructor
      · rintro ⟨⟨hl0, hl1⟩, hg0, hg1⟩
        have hex := intersect_exists a b c d hdet
        exact ⟨hdet, lambdaOf a b c d, 1 - gammaOf a b c d, ⟨hl0, hl1⟩,
          ⟨by linarith, by linarith⟩, hex.1, hex.2⟩
      · rintro ⟨-, t, s, ⟨ht0, ht1⟩, ⟨hs0, hs1⟩, hx, hy⟩
        obtain ⟨hteq, hseq⟩ := intersect_unique a b c d hdet t s hx hy
        refine ⟨⟨by linarith, by linarith⟩, by linarith, by linarith⟩
    · intro t s hbound hx hy
      obtain ⟨hteq, hseq⟩ := intersect_unique a b c d hdet t s hx hy
      rw [decide_eq_false_iff_not]
      rintro ⟨⟨hl0, hl1⟩, hg0, hg1⟩
      rcases hbound with h | h | h | h <;> subst h <;> linarith

/-- Witness for C4 at a concrete proper crossing. -/
theorem C4_linesIntersect_strict_proper_witness :
    linesIntersect ⟨30, 0⟩ ⟨40, 0⟩ ⟨35, -17⟩ ⟨35, 17⟩ = true ∧
      detOf ⟨30, 0⟩ ⟨40, 0⟩ ⟨35, -17⟩ ⟨35, 17⟩ ≠ 0 ∧
      ∃ t s : ℚ, (0 < t ∧ t < 1) ∧ (0 < s ∧ s < 1) ∧
        (30 : ℚ) + t * (40 - 30) = 35 + s * (35 - 35) ∧
        (0 : ℚ) + t * (0 - 0) = -17 + s * (17 - -17) := by
  have h := (C4_linesIntersect_strict_proper ⟨30, 0⟩ ⟨40, 0⟩ ⟨35, -17⟩ ⟨35, 17⟩).1.mp
    wall_edge_intersect
  exact ⟨wall_edge_intersect, h.1, h.2⟩

/-! ## C5: speed and steering bounds -/

/-- C5: starting from the reset state (speed = 0, steeringAngle = 0) and
feeding each tick a steering input in `[-1, 1]`, after every tick the
committed state satisfies `|speed| ≤ MAX_SPEED` and
`|steeringAngle| ≤ MAX_STEERING_ANGLE` (the control list is arbitrary, so
this covers the state after each prefix of ticks). -/
theorem C5_speed_steering_bounds (T : Trig) (hpi : 0 ≤ T.pi) (d : Difficulty)
    (m : GameMap) (ctrls : List ControlState)
    (hst : ∀ c ∈ ctrls, |c.steering| ≤ 1) :
    (resetCar m).speed = 0 ∧ (resetCar m).steeringAngle = 0 ∧
    (|(runTicks T d m ctrls (resetCar m)).speed| ≤ MAX_SPEED ∧
      |(runTicks T d m ctrls (resetCar m)).steeringAngle| ≤ MAX_STEERING_ANGLE T) := by
  refine ⟨rfl, rfl, ?_⟩
  refine runTicks_bounds T hpi d m ctrls (resetCar m) ?_ ?_ hst
  · show |(0:ℚ)| ≤ MAX_SPEED
    norm_num [MAX_SPEED]
  · show |(0:ℚ)| ≤ MAX_STEERING_ANGLE T
    simp only [MAX_STEERING_ANGLE, abs_zero]
    linarith

/-- Witness for C5 on a one-tick control sequence with full steering. -/
theorem C5_speed_steering_bounds_witness :
    0 ≤ trig3.pi ∧ (∀ c ∈ [steerCtrl], |c.steering| ≤ 1) ∧
      (|(runTicks trig3 Difficulty.hard emptyMap [steerCtrl] (resetCar emptyMap)).speed| ≤
          MAX_SPEED ∧
        |(runTicks trig3 Difficulty.hard emptyMap [steerCtrl] (resetCar emptyMap)).steeringAngle| ≤
          MAX_STEERING_ANGLE trig3) := by
  have hst : ∀ c ∈ [steerCtrl], |c.steering| ≤ 1 := by
    intro c hc
    rw [List.mem_singleton] at hc
    subst hc
    simp [steerCtrl]
  have h := C5_speed_steering_bounds trig3 (by decide) Difficulty.hard emptyMap
    [steerCtrl] hst
  exact ⟨by decide, hst, h.2.2⟩

/-! ## C6: the speed update rule (corrected) -/

/-- C6 as written is false on the code: with brake and gas both released the
committed speed moves toward the target (0) by `ACCELERATION` *and then*
decays a further `FRICTION`, not by `ACCELERATION` alone.  Concretely, at
speed 1 in Drive coasting, the claim predicts `moveToward 1 0 ACCELERATION
= 0.96` while the code commits `0.93`. -/
theorem C6_counterexample :
    coastCtrl.brake = false ∧ movingCar.crashed = false ∧ movingCar.success = false ∧
      (tick trig3 Difficulty.hard emptyMap coastCtrl movingCar).speed ≠
        moveToward movingCar.speed (targetSpeedOf coastCtrl) ACCELERATION := by
  refine ⟨rfl, rfl, rfl, ?_⟩
  have hs : (tick trig3 Difficulty.hard emptyMap coastCtrl movingCar).speed = 93 / 100 := by
    rw [tick_speed trig3 Difficulty.hard emptyMap coastCtrl movingCar rfl rfl,
      stepSpeed_coast coastCtrl movingCar rfl rfl]
    rw [if_pos (by norm_num [movingCar])]
    rw [show movingCar.speed = 1 from rfl]
    rw [max_eq_right (by norm_num [ACCELERATION, FRICTION])]
    norm_num [ACCELERATION, FRICTION]
  have hm : moveToward movingCar.speed (targetSpeedOf coastCtrl) ACCELERATION = 24 / 25 := by
    rw [show targetSpeedOf coastCtrl = 0 from rfl, show movingCar.speed = 1 from rfl]
    unfold moveToward
    rw [if_neg (by norm_num), if_pos (by norm_num)]
    rw [max_eq_right (by norm_num [ACCELERATION])]
    norm_num [ACCELERATION]
  rw [hs, hm]
  norm_num

/-- C6 (amended): the target speed is `+MAX_SPEED` for Drive with gas,
`−MAX_SPEED` for Reverse with gas and 0 otherwise; on a Running tick, if
brake is held the committed speed moves toward 0 by `3×ACCELERATION`
clamped at zero, if gas is held it moves toward the target by
`ACCELERATION` clamped at the target, and if neither pedal is held it moves
toward 0 by `ACCELERATION` and then by a further `FRICTION`, each clamped
at zero. -/
theorem C6_amended_speed_update (T : Trig) (d : Difficulty) (m : GameMap)
    (ctrl : ControlState) (car : CarState) (h1 : car.crashed = false)
    (h2 : car.success = false) :
    (targetSpeedOf ctrl =
      if ctrl.gear = Gear.D ∧ ctrl.gas = true then MAX_SPEED
      else if ctrl.gear = Gear.R ∧ ctrl.gas = true then -MAX_SPEED else 0) ∧
    (tick T d m ctrl car).speed =
      (if ctrl.brake = true then moveToward car.speed 0 (ACCELERATION * 3)
       else if ctrl.gas = true then moveToward car.speed (targetSpeedOf ctrl) ACCELERATION
       else moveToward (moveToward car.speed 0 ACCELERATION) 0 FRICTION) := by
  constructor
  · unfold targetSpeedOf
    split_ifs <;> simp_all
  · rw [tick_speed T d m ctrl car h1 h2]
    exact stepSpeed_eq_moveToward ctrl car

/-- Witness for the amended C6 at a concrete moving state with gas held. -/
theorem C6_amended_speed_update_witness :
    movingCar.crashed = false ∧ movingCar.success = false ∧
      (tick trig3 Difficulty.hard emptyMap gasCtrl movingCar).speed =
        (if gasCtrl.brake = true then moveToward movingCar.speed 0 (ACCELERATION * 3)
         else if gasCtrl.gas = true then
           moveToward movingCar.speed (targetSpeedOf gasCtrl) ACCELERATION
         else moveToward (moveToward movingCar.speed 0 ACCELERATION) 0 FRICTION) :=
  ⟨rfl, rfl,
    (C6_amended_speed_update trig3 Difficulty.hard emptyMap gasCtrl movingCar rfl rfl).2⟩

/-! ## C7: coasting decay (corrected) -/

/-- C7 as written is false on the code: coasting (gas and brake both
released) decays the speed by `ACCELERATION + FRICTION` per tick, not by
`FRICTION` alone, because the acceleration-toward-target stage (target 0)
also runs.  At speed 1 the claim predicts `max 0 (1 − FRICTION) = 0.97`
while the code commits `0.93`. -/
theorem C7_counterexample :
    coastCtrl.gas = false ∧ coastCtrl.brake = false ∧ movingCar.crashed = false ∧
      movingCar.success = false ∧ movingCar.speed ≠ 0 ∧
      |(tick trig3 Difficulty.hard emptyMap coastCtrl movingCar).speed| ≠
        max 0 (|movingCar.speed| - FRICTION) := by
  refine ⟨rfl, rfl, rfl, rfl, by norm_num [movingCar], ?_⟩
  have hs : (tick trig3 Difficulty.hard emptyMap coastCtrl movingCar).speed = 93 / 100 := by
    rw [tick_speed trig3 Difficulty.hard emptyMap coastCtrl movingCar rfl rfl,
      stepSpeed_coast coastCtrl movingCar rfl rfl]
    rw [if_pos (by norm_num [movingCar])]
    rw [show movingCar.speed = 1 from rfl]
    rw [max_eq_right (by norm_num [ACCELERATION, FRICTION])]
    norm_num [ACCELERATION, FRICTION]
  rw [hs, show movingCar.speed = 1 from rfl, abs_one,
    max_eq_right (by norm_num [FRICTION] : (0:ℚ) ≤ 1 - FRICTION)]
  rw [abs_of_nonneg (by norm_num : (0:ℚ) ≤ 93 / 100)]
  norm_num [FRICTION]

/-- C7 (amended): on a Running tick with gas = false and brake = false, the
committed speed magnitude equals
`max 0 (|speed| − (ACCELERATION + FRICTION))`, for every gear. -/
theorem C7_amended_coast_decay (T : Trig) (d : Difficulty) (m : GameMap)
    (ctrl : ControlState) (car : CarState) (h1 : car.crashed = false)
    (h2 : car.success = false) (hg : ctrl.gas = false) (hb : ctrl.brake = false) :
    |(tick T d m ctrl car).speed| = max 0 (|car.speed| - (ACCELERATION + FRICTION)) :=
  coast_abs_speed T d m ctrl car h1 h2 hg hb

/-- Witness for the amended C7 at a concrete coasting state. -/
theorem C7_amended_coast_decay_witness :
    movingCar.crashed = false ∧ movingCar.success = false ∧ coastCtrl.gas = false ∧
      coastCtrl.brake = false ∧
      |(tick trig3 Difficulty.hard emptyMap coastCtrl movingCar).speed| =
        max 0 (|movingCar.speed| - (ACCELERATION + FRICTION)) :=
  ⟨rfl, rfl, rfl, rfl,
    C7_amended_coast_decay trig3 Difficulty.hard emptyMap coastCtrl movingCar rfl rfl rfl rfl⟩

/-! ## C8: friction monotonicity -/

/-- C8: with no pedal input, a Running tick with nonzero speed strictly
decreases `|speed|`, a Running tick at speed 0 keeps it exactly 0, and on
an obstacle-free course the speed reaches exactly 0 after finitely many
coasting ticks. -/
theorem C8_friction_monotonic (T : Trig) (d : Difficulty) (m : GameMap)
    (ctrl : ControlState) (car : CarState) (hg : ctrl.gas = false)
    (hb : ctrl.brake = false) (h1 : car.crashed = false) (h2 : car.success = false) :
    (car.speed ≠ 0 → |(tick T d m ctrl car).speed| < |car.speed|) ∧
    (car.speed = 0 → (tick T d m ctrl car).speed = 0) ∧
    (m.obstacles = [] → m.targetZone = [] →
      ∃ n : ℕ, (runTicks T d m (List.replicate n ctrl) car).speed = 0) := by
  refine ⟨?_, ?_, ?_⟩
  · intro hne
    rw [coast_abs_speed T d m ctrl car h1 h2 hg hb]
    have habs : 0 < |car.speed| := abs_pos.mpr hne
    refine max_lt habs ?_
    norm_num [ACCELERATION, FRICTION]
  · intro h0
    rw [tick_speed T d m ctrl car h1 h2, stepSpeed_coast ctrl car hg hb, h0]
    norm_num [ACCELERATION, FRICTION]
  · intro ho hz
    refine ⟨⌈|car.speed| / (ACCELERATION + FRICTION)⌉₊, ?_⟩
    apply coast_reaches_zero T d m ctrl hg hb ho hz _ car h1 h2
    have hc : |car.speed| / (ACCELERATION + FRICTION) ≤
        (⌈|car.speed| / (ACCELERATION + FRICTION)⌉₊ : ℚ) := Nat.le_ceil _
    have hpos : (0:ℚ) < ACCELERATION + FRICTION := by norm_num [ACCELERATION, FRICTION]
    rw [div_le_iff₀ hpos] at hc
    exact hc

/-- Witness for C8 at a concrete coasting state. -/
theorem C8_friction_monotonic_witness :
    coastCtrl.gas = false ∧ coastCtrl.brake = false ∧ movingCar.crashed = false ∧
      movingCar.success = false ∧ movingCar.speed ≠ 0 ∧
      |(tick trig3 Difficulty.hard emptyMap coastCtrl movingCar).speed| < |movingCar.speed| ∧
      ∃ n : ℕ,
        (runTicks trig3 Difficulty.hard emptyMap (List.replicate n coastCtrl) movingCar).speed
          = 0 := by
  have h := C8_friction_monotonic trig3 Difficulty.hard emptyMap coastCtrl movingCar
    rfl rfl rfl rfl
  have hne : movingCar.speed ≠ 0 := by norm_num [movingCar]
  exact ⟨rfl, rfl, rfl, rfl, hne, h.1 hne, h.2.2 rfl rfl⟩

/-! ## C9: below the 0.01 speed threshold the pose is frozen -/

/-- C9: on a Running tick whose updated speed has absolute value below the
0.01 threshold, the tick leaves heading and position unchanged, for any
steering input and gear. -/
theorem C9_low_speed_pose_frozen (T : Trig) (d : Difficulty) (m : GameMap)
    (ctrl : ControlState) (car : CarState) (h1 : car.crashed = false)
    (h2 : car.success = false)
    (hs : |(tick T d m ctrl car).speed| < 1 / 100) :
    (tick T d m ctrl car).angle = car.angle ∧
      (tick T d m ctrl car).x = car.x ∧ (tick T d m ctrl car).y = car.y := by
  rw [tick_running_eq T d m ctrl car h1 h2] at hs ⊢
  simp only [stepCar_speed] at hs
  have hs' : ¬ |stepSpeed ctrl car| > 1 / 100 := by
    intro hgt
    exact absurd hs (not_lt.mpr (le_of_lt hgt))
  have h := stepCar_pose_frozen T ctrl car hs'
  exact ⟨h.1, h.2.1, h.2.2⟩

/-- Witness for C9 at a concrete resting state. -/
theorem C9_low_speed_pose_frozen_witness :
    restingCar.crashed = false ∧ restingCar.success = false ∧
      |(tick trig3 Difficulty.hard emptyMap idleCtrl restingCar).speed| < 1 / 100 ∧
      (tick trig3 Difficulty.hard emptyMap idleCtrl restingCar).angle = restingCar.angle ∧
      (tick trig3 Difficulty.hard emptyMap idleCtrl restingCar).x = restingCar.x ∧
      (tick trig3 Difficulty.hard emptyMap idleCtrl restingCar).y = restingCar.y := by
  have h0 : (tick trig3 Difficulty.hard emptyMap idleCtrl restingCar).speed = 0 := rfl
  have hs : |(tick trig3 Difficulty.hard emptyMap idleCtrl restingCar).speed| < 1 / 100 := by
    rw [h0]
    norm_num
  have h := C9_low_speed_pose_frozen trig3 Difficulty.hard emptyMap idleCtrl restingCar
    rfl rfl hs
  exact ⟨rfl, rfl, hs, h.1, h.2.1, h.2.2⟩

/-! ## C10: the core does not clamp the steering input -/

/-- C10: on every Running tick the committed `steeringAngle` equals exactly
`steering × MAX_STEERING_ANGLE` for any real steering value, and some input
with `|steering| > 1` yields `|steeringAngle|` exceeding
`MAX_STEERING_ANGLE`: no defensive clamp exists in the core. -/
theorem C10_no_steering_clamp (T : Trig) (hpi : 0 < T.pi) :
    (∀ (d : Difficulty) (m : GameMap) (ctrl : ControlState) (car : CarState),
      car.crashed = false → car.success = false →
        (tick T d m ctrl car).steeringAngle = ctrl.steering * MAX_STEERING_ANGLE T) ∧
    ∃ st : ℚ, 1 < |st| ∧ MAX_STEERING_ANGLE T < |st * MAX_STEERING_ANGLE T| := by
  constructor
  · intro d m ctrl car h1 h2
    rw [tick_running_eq T d m ctrl car h1 h2]
    rfl
  · refine ⟨2, by norm_num, ?_⟩
    have hmsa : 0 < MAX_STEERING_ANGLE T := by
      simp only [MAX_STEERING_ANGLE]
      linarith
    rw [abs_mul, abs_of_pos hmsa]
    rw [show |(2 : ℚ)| = 2 by norm_num]
    linarith

/-- Witness for C10 at a concrete trig bundle and running state. -/
theorem C10_no_steering_clamp_witness :
    0 < trig3.pi ∧
      (tick trig3 Difficulty.hard emptyMap steerCtrl restingCar).steeringAngle =
        steerCtrl.steering * MAX_STEERING_ANGLE trig3 := by
  have h := C10_no_steering_clamp trig3 (by decide)
  exact ⟨by decide, h.1 Difficulty.hard emptyMap steerCtrl restingCar rfl rfl⟩

end DC
